import Mathlib

/-!
# Verification of the dataquest real-time meeting coordinator

Shallow embedding of the meeting-session coordinator of the dataquest
repository: the Socket.io handlers (`backend/socket/socketHandlers.js`),
the `Meeting` document methods (`backend/models/Meeting.js`) and the
REST join route (`backend/routes/meetings.js`).

Conventions of the embedding:
* JavaScript `null`/`undefined` values are `Option.none`; a field that the
  code may set to `undefined` via `Object.assign` is an `Option`.
* A handler wrapped in `try { … } catch` in the source is a total Lean
  function: at every program point where the JS body can throw (e.g.
  `userId.toString()` on a `null` user id), the model branches directly to
  the behaviour of the `catch` block, keeping the state mutated so far.
* The three WebRTC relay handlers have no `try`/`catch` in the source, so
  they return `Except Unit _`; `Except.error ()` is an uncaught exception.
* Emitted Socket.io events are collected in a list of `Emit` records; the
  delivery semantics of `socket.emit` / `socket.to(room).emit` /
  `io.to(room).emit` is `deliverTo`.
* `Date.now()` is an explicit `now : Nat` parameter; `joinedAt` timestamps
  are not modelled (they are never read by the coordinator).
-/

namespace DQ

/-- One entry of a persisted meeting's `participants` array
(`participantSchema` in `backend/models/Meeting.js`).  `userId` is required
by the schema; `isMuted`/`isVideoOn` are `Option Bool` because
`Object.assign(participant, {isMuted: undefined, …})` in
`updateParticipant` can set them to JS `undefined`. -/
structure Participant where
  userId : String
  name : String
  isMuted : Option Bool
  isVideoOn : Option Bool
  isHost : Bool
  socketId : Option String
deriving DecidableEq, Repr

/-- A persisted meeting document (`meetingSchema`), restricted to the
fields the coordinator reads. -/
structure Meeting where
  meetingId : String
  hostId : String
  isActive : Bool
  participants : List Participant
  maxParticipants : Nat
  requirePassword : Bool
  meetingPassword : Option String
deriving DecidableEq, Repr

/-- The per-connection state the socket middleware attaches to a socket:
`socket.id`, `socket.userId`, `socket.userName`, `socket.isAuthenticated`,
`socket.currentMeeting`. -/
structure SocketState where
  sid : String
  userId : Option String
  userName : String
  isAuthenticated : Bool
  currentMeeting : Option String
deriving DecidableEq, Repr

/-- Socket.io room registry: room name to the list of socket ids joined to
it (`socket.join` / `socket.leave`). -/
abbrev Rooms := List (String × List String)

/-- The view of a participant put on the wire by the `join-meeting` handler
(`meeting.participants.map(p => ({userId, name, isMuted, isVideoOn,
isHost}))`). -/
structure PView where
  userId : String
  name : String
  isMuted : Option Bool
  isVideoOn : Option Bool
  isHost : Bool
deriving DecidableEq, Repr

/-- Payloads of the outbound events the modelled handlers emit. -/
inductive Payload where
  | errorMsg (message : String)
  | userConnected (userId : String) (userName : String) (socketId : String) (isGuest : Bool)
  | meetingJoined (meetingId : String) (participants : List PView) (isHost : Bool)
  | webrtcOffer (fromUserId : String) (fromUserName : String) (offer : String)
  | webrtcAnswer (fromUserId : String) (answer : String)
  | webrtcIce (fromUserId : String) (candidate : String)
  | newMessage (id : String) (userId : Option String) (userName : String)
      (message : String) (type_ : String) (timestamp : Nat)
  | statusUpdated (userId : Option String) (userName : String)
      (isMuted : Option Bool) (isVideoOn : Option Bool)
  | muteRequest (targetUserId : String) (fromHost : Bool)
  | userDisconnected (userId : Option String) (userName : String)
  | participantJoined (participant : PView) (meetingId : String) (participants : List PView)
deriving DecidableEq, Repr

/-- Addressing of an emit: `socket.emit` (to the sender only),
`socket.to(room).emit` (to the room except the sender) or
`io.to(room).emit` (to the whole room). -/
inductive Target where
  | sender
  | others (room : String)
  | room (room : String)
deriving DecidableEq, Repr

/-- One emitted event: addressing, event name, payload. -/
structure Emit where
  target : Target
  event : String
  payload : Payload
deriving DecidableEq, Repr

/-- `socket.emit('error', { message })`. -/
def errEmit (message : String) : Emit :=
  ⟨Target.sender, "error", Payload.errorMsg message⟩

/-- JS `s.toUpperCase()` (character-wise upper-casing, written on the
underlying character list so that it evaluates by kernel reduction). -/
def jsToUpper (s : String) : String :=
  ⟨s.data.map Char.toUpper⟩

/-- JS `s.trim()`: strip whitespace from both ends. -/
def jsTrim (s : String) : String :=
  ⟨((s.data.dropWhile Char.isWhitespace).reverse.dropWhile
      Char.isWhitespace).reverse⟩

def participantView (p : Participant) : PView :=
  ⟨p.userId, p.name, p.isMuted, p.isVideoOn, p.isHost⟩

/-- `Meeting.findOne({ meetingId: meetingId.toUpperCase(), isActive: true })`. -/
def findActiveMeeting (db : List Meeting) (meetingId : String) : Option Meeting :=
  db.find? (fun m => m.meetingId == jsToUpper meetingId && m.isActive)

/-- `meeting.save()`: persist the (modified) document, replacing the stored
document with the same `meetingId`. -/
def saveMeeting (db : List Meeting) (m : Meeting) : List Meeting :=
  db.map (fun x => if x.meetingId == m.meetingId then m else x)

/-- `socket.join(room)`: add the socket id to the room (a set). -/
def roomsJoin : Rooms → String → String → Rooms
  | [], r, sid => [(r, [sid])]
  | (q, ms) :: rest, r, sid =>
    if q == r then (q, if sid ∈ ms then ms else ms ++ [sid]) :: rest
    else (q, ms) :: roomsJoin rest r sid

/-- `socket.leave(room)`: remove the socket id from the room. -/
def roomsLeave : Rooms → String → String → Rooms
  | [], _, _ => []
  | (q, ms) :: rest, r, sid =>
    if q == r then (q, ms.filter (fun x => x ≠ sid)) :: rest
    else (q, ms) :: roomsLeave rest r sid

/-- The socket ids currently joined to a room. -/
def roomMembers (rooms : Rooms) (r : String) : List String :=
  match rooms.find? (fun x => x.1 == r) with
  | some (_, ms) => ms
  | none => []

/-- Which socket ids receive an emit with the given target, when `sock` is
the emitting socket: `socket.emit` reaches only the sender,
`socket.to(r)` reaches the room minus the sender, `io.to(r)` the whole
room. -/
def deliverTo (rooms : Rooms) (sock : SocketState) : Target → List String
  | Target.sender => [sock.sid]
  | Target.others r => (roomMembers rooms r).filter (fun x => x ≠ sock.sid)
  | Target.room r => roomMembers rooms r

/-- `meeting.addParticipant(userId, name, isHost)` from
`backend/models/Meeting.js`: return the existing entry if the user is
already a participant, throw `'Meeting is full'` when at capacity,
otherwise push a new entry (schema defaults `isMuted:false`,
`isVideoOn:true`). -/
def Meeting.addParticipant (m : Meeting) (userId name : String)
    (isHost : Bool) : Except String (Meeting × Participant) :=
  match m.participants.find? (fun p => p.userId == userId) with
  | some p => Except.ok (m, p)
  | none =>
    if m.participants.length ≥ m.maxParticipants then
      Except.error "Meeting is full"
    else
      let p : Participant :=
        { userId := userId, name := name, isMuted := some false,
          isVideoOn := some true, isHost := isHost, socketId := none }
      Except.ok ({ m with participants := m.participants ++ [p] }, p)

/-- `meeting.removeParticipant(userId)`: filter the user out of the
participants array. -/
def Meeting.removeParticipant (m : Meeting) (userId : String) : Meeting :=
  { m with participants := m.participants.filter (fun p => p.userId ≠ userId) }

/-- `Object.assign(participant, updates)` on the first participant whose
`userId` matches; both keys `isMuted` and `isVideoOn` are always present in
`updates` (possibly with value `undefined`), so both fields are
overwritten. -/
def updateFirstParticipant (ps : List Participant) (userId : String)
    (mu vo : Option Bool) : List Participant :=
  match ps with
  | [] => []
  | p :: rest =>
    if p.userId == userId then { p with isMuted := mu, isVideoOn := vo } :: rest
    else p :: updateFirstParticipant rest userId mu vo

/-- `meeting.isUserHost(userId)` for a non-null user id:
`hostId.toString() === userId.toString()`.  (With a `null` user id the
source throws; call sites model that branch explicitly.) -/
def Meeting.isUserHost (m : Meeting) (userId : String) : Bool :=
  m.hostId == userId

/-- Result of the whole `join-meeting` handler: possibly-updated
persisted store, room registry and socket state, plus the emitted
events. -/
structure JoinOut where
  db : List Meeting
  rooms : Rooms
  sock : SocketState
  emits : List Emit
deriving DecidableEq, Repr

/-- Shared tail of the `join-meeting` handler, from `socket.join(meetingId)`
on: join the room, set `currentMeeting`, broadcast `user-connected` to the
others, then reply `meeting-joined` — unless `socket.userId` is null, in
which case `meeting.isUserHost(null)` throws (`null.toString()`) and the
`catch` block emits `'Failed to join meeting'` instead, with the room
registration already done. -/
def joinTail (db : List Meeting) (rooms : Rooms) (sock : SocketState)
    (meetingId : String) (m : Meeting) : JoinOut :=
  let rooms' := roomsJoin rooms meetingId sock.sid
  let sock' := { sock with currentMeeting := some meetingId }
  let e1 : Emit :=
    ⟨Target.others meetingId, "user-connected",
      Payload.userConnected (sock.userId.getD ("guest-" ++ sock.sid))
        sock.userName sock.sid (!sock.isAuthenticated)⟩
  match sock.userId with
  | none =>
    { db := db, rooms := rooms', sock := sock',
      emits := [e1, errEmit "Failed to join meeting"] }
  | some uid =>
    { db := db, rooms := rooms', sock := sock',
      emits := [e1,
        ⟨Target.sender, "meeting-joined",
          Payload.meetingJoined meetingId (m.participants.map participantView)
            (m.isUserHost uid)⟩] }

/-- The `join-meeting` socket handler (`socketHandlers.js`, lines 45–113).
`data = none` models a payload on which `const { meetingId } = data` /
`meetingId.toUpperCase()` throws; the surrounding `try`/`catch` turns that
into an `error 'Failed to join meeting'` emit. -/
def joinMeeting (db : List Meeting) (rooms : Rooms) (sock : SocketState)
    (data : Option String) : JoinOut :=
  match data with
  | none => { db := db, rooms := rooms, sock := sock,
              emits := [errEmit "Failed to join meeting"] }
  | some meetingId =>
    match findActiveMeeting db meetingId with
    | none => { db := db, rooms := rooms, sock := sock,
                emits := [errEmit "Meeting not found"] }
    | some meeting =>
      if sock.isAuthenticated then
        match sock.userId with
        | none =>
          -- authenticated socket without a user id: the pushed participant
          -- has no `userId`, so `meeting.save()` fails schema validation
          -- and the catch block reports the failure (unreachable under the
          -- auth middleware, which always sets both fields together)
          { db := db, rooms := rooms, sock := sock,
            emits := [errEmit "Failed to join meeting"] }
        | some uid =>
          if meeting.participants.any (fun p => p.userId == uid) then
            joinTail db rooms sock meetingId meeting
          else
            let m' := { meeting with participants := meeting.participants ++
              [{ userId := uid, name := sock.userName, isMuted := some false,
                 isVideoOn := some true, isHost := false,
                 socketId := some sock.sid }] }
            joinTail (saveMeeting db m') rooms sock meetingId m'
      else
        joinTail db rooms sock meetingId meeting

/-- Payload of a `webrtc-offer` event. -/
structure OfferData where
  targetUserId : String
  offer : String
  meetingId : String
deriving DecidableEq, Repr

/-- Payload of a `webrtc-answer` event. -/
structure AnswerData where
  targetUserId : String
  answer : String
  meetingId : String
deriving DecidableEq, Repr

/-- Payload of a `webrtc-ice-candidate` event. -/
structure IceData where
  targetUserId : String
  candidate : String
  meetingId : String
deriving DecidableEq, Repr

/-- The `webrtc-offer` handler (lines 116–124).  No membership check and no
`try`/`catch`: a `null` payload makes the destructuring throw an uncaught
exception (`Except.error ()`); otherwise the offer is forwarded to the room
named in the payload, excluding the sender, with `fromUserId` and
`fromUserName`. -/
def webrtcOffer (sock : SocketState) (data : Option OfferData) :
    Except Unit (List Emit) :=
  match data with
  | none => Except.error ()
  | some d =>
    Except.ok [⟨Target.others d.meetingId, "webrtc-offer",
      Payload.webrtcOffer (sock.userId.getD ("guest-" ++ sock.sid))
        sock.userName d.offer⟩]

/-- The `webrtc-answer` handler (lines 126–133): like the offer relay, but
the forwarded payload carries only `fromUserId` and the answer (no
`fromUserName`). -/
def webrtcAnswer (sock : SocketState) (data : Option AnswerData) :
    Except Unit (List Emit) :=
  match data with
  | none => Except.error ()
  | some d =>
    Except.ok [⟨Target.others d.meetingId, "webrtc-answer",
      Payload.webrtcAnswer (sock.userId.getD ("guest-" ++ sock.sid)) d.answer⟩]

/-- The `webrtc-ice-candidate` handler (lines 135–142): forwards
`fromUserId` and the candidate. -/
def webrtcIceCandidate (sock : SocketState) (data : Option IceData) :
    Except Unit (List Emit) :=
  match data with
  | none => Except.error ()
  | some d =>
    Except.ok [⟨Target.others d.meetingId, "webrtc-ice-candidate",
      Payload.webrtcIce (sock.userId.getD ("guest-" ++ sock.sid)) d.candidate⟩]

/-- Inbound payload of `send-message`; `message = none` models a payload on
which `message.trim()` throws, `type_ = none` an absent `type` key (the
destructuring default makes it `'text'`). -/
structure MsgData where
  meetingId : String
  message : Option String
  type_ : Option String
deriving DecidableEq, Repr

/-- The `send-message` handler (lines 145–171).  Rejects a sender whose
`currentMeeting` does not equal the payload's `meetingId` with
`'Not in this meeting'`; otherwise broadcasts a single `new-message` record
(`id = Date.now().toString()`, trimmed text) to the whole room, sender
included.  The `try`/`catch` turns a throwing `message.trim()` into
`'Failed to send message'`. -/
def sendMessage (sock : SocketState) (data : Option MsgData) (now : Nat) :
    List Emit :=
  match data with
  | none => [errEmit "Failed to send message"]
  | some d =>
    if sock.currentMeeting ≠ some d.meetingId then
      [errEmit "Not in this meeting"]
    else
      match d.message with
      | none => [errEmit "Failed to send message"]
      | some msg =>
        [⟨Target.room d.meetingId, "new-message",
          Payload.newMessage (toString now) sock.userId sock.userName
            (jsTrim msg) (d.type_.getD "text") now⟩]

/-- Inbound payload of `update-participant-status`: each flag may be
absent (`undefined`). -/
structure StatusData where
  meetingId : String
  isMuted : Option Bool
  isVideoOn : Option Bool
deriving DecidableEq, Repr

/-- The `update-participant-status` handler (lines 174–210).  After the
`currentMeeting` check, the meeting is looked up; if found,
`meeting.updateParticipant(socket.userId, …)` runs: with a `null` user id
the `find` callback throws on the first participant
(`p.userId.toString() === userId.toString()`), caught as
`'Failed to update status'` — unless the participants array is empty, in
which case `find` never runs its callback, returns `undefined`, and the
handler silently does nothing.  When the participant is found, both status
fields are overwritten (`Object.assign` with both keys always present),
the meeting is saved and `participant-status-updated` is broadcast to the
whole room. -/
def updateParticipantStatus (db : List Meeting) (sock : SocketState)
    (data : Option StatusData) : List Meeting × List Emit :=
  match data with
  | none => (db, [errEmit "Failed to update status"])
  | some d =>
    if sock.currentMeeting ≠ some d.meetingId then
      (db, [errEmit "Not in this meeting"])
    else
      match findActiveMeeting db d.meetingId with
      | none => (db, [])
      | some m =>
        match sock.userId with
        | none =>
          if m.participants.isEmpty then (db, [])
          else (db, [errEmit "Failed to update status"])
        | some uid =>
          match m.participants.find? (fun p => p.userId == uid) with
          | none => (db, [])
          | some _ =>
            let m' := { m with participants :=
              updateFirstParticipant m.participants uid d.isMuted d.isVideoOn }
            (saveMeeting db m',
              [⟨Target.room d.meetingId, "participant-status-updated",
                Payload.statusUpdated (some uid) sock.userName
                  d.isMuted d.isVideoOn⟩])

/-- Inbound payload of `mute-participant`. -/
structure MuteData where
  meetingId : String
  targetUserId : String
deriving DecidableEq, Repr

/-- The `mute-participant` handler (lines 234–257).  When the meeting is
missing or the requester is not its host, emit
`'Not authorized to mute participants'`; a `null` requester user id makes
`meeting.isUserHost(socket.userId)` throw, caught as
`'Failed to mute participant'`.  For the host, broadcast `mute-request`
with the target's user id to the whole room; the meeting document is never
written. -/
def muteParticipant (db : List Meeting) (sock : SocketState)
    (data : Option MuteData) : List Emit :=
  match data with
  | none => [errEmit "Failed to mute participant"]
  | some d =>
    match findActiveMeeting db d.meetingId with
    | none => [errEmit "Not authorized to mute participants"]
    | some m =>
      match sock.userId with
      | none => [errEmit "Failed to mute participant"]
      | some uid =>
        if m.isUserHost uid then
          [⟨Target.room d.meetingId, "mute-request",
            Payload.muteRequest d.targetUserId true⟩]
        else
          [errEmit "Not authorized to mute participants"]

/-- The `leave-meeting` handler (lines 260–276): when the socket has a
current meeting, leave the room, notify the others with
`user-disconnected`, clear `currentMeeting`.  The persisted document is
untouched. -/
def leaveMeeting (rooms : Rooms) (sock : SocketState) :
    Rooms × SocketState × List Emit :=
  match sock.currentMeeting with
  | none => (rooms, sock, [])
  | some meetingId =>
    (roomsLeave rooms meetingId sock.sid,
     { sock with currentMeeting := none },
     [⟨Target.others meetingId, "user-disconnected",
       Payload.userDisconnected sock.userId sock.userName⟩])

/-- Outcome of `POST /api/meetings/join/:meetingId`
(`backend/routes/meetings.js`, lines 149–249), reduced to the response
class and the participant it reports. -/
inductive RestResult where
  | notFound
  | invalidPassword
  | meetingFull
  | alreadyIn (p : Participant)
  | joined (p : Participant)
  | serverError
deriving DecidableEq, Repr

/-- `meeting.requirePassword && meeting.meetingPassword !== password`:
the stored password is `none` for JS `null`, the provided one `none` for an
absent body field (`undefined`); `null !== undefined` is true in JS, so
mismatch holds whenever either side is missing. -/
def passwordMismatch (stored provided : Option String) : Bool :=
  match stored, provided with
  | some s, some p => s ≠ p
  | _, _ => true

/-- The REST join route `POST /join/:meetingId` (authenticated users only).
Order of checks, exactly as in the source: active-meeting lookup, password,
capacity, already-a-participant, then `meeting.addParticipant` + save +
`participant-joined` broadcast to the socket room. -/
def restJoin (db : List Meeting) (uid uname : String) (meetingId : String)
    (password : Option String) : List Meeting × RestResult × List Emit :=
  match findActiveMeeting db meetingId with
  | none => (db, RestResult.notFound, [])
  | some m =>
    if m.requirePassword && passwordMismatch m.meetingPassword password then
      (db, RestResult.invalidPassword, [])
    else if m.participants.length ≥ m.maxParticipants then
      (db, RestResult.meetingFull, [])
    else
      match m.participants.find? (fun p => p.userId == uid) with
      | some p => (db, RestResult.alreadyIn p, [])
      | none =>
        match m.addParticipant uid uname false with
        | Except.error _ => (db, RestResult.serverError, [])
        | Except.ok (m', p) =>
          (saveMeeting db m', RestResult.joined p,
            [⟨Target.room meetingId, "participant-joined",
              Payload.participantJoined (participantView p) m'.meetingId
                (m'.participants.map participantView)⟩])

/-- A persisted-side membership operation: a join through
`Meeting.addParticipant` (an `error` leaves the document unchanged, as the
callers catch the throw before `save`) or a leave through
`Meeting.removeParticipant`. -/
inductive MeetingOp where
  | add (userId name : String)
  | remove (userId : String)
deriving DecidableEq, Repr

/-- Apply one membership operation to a meeting document. -/
def runOp (m : Meeting) : MeetingOp → Meeting
  | MeetingOp.add u n =>
    match m.addParticipant u n false with
    | Except.ok (m', _) => m'
    | Except.error _ => m
  | MeetingOp.remove u => m.removeParticipant u

/-- Apply a sequence of membership operations. -/
def runOps (m : Meeting) (ops : List MeetingOp) : Meeting :=
  ops.foldl runOp m

/-- The member list a payload carries, when it carries one (used to state
which events do and do not contain a membership snapshot). -/
def payloadMemberList : Payload → Option (List PView)
  | Payload.meetingJoined _ ps _ => some ps
  | Payload.participantJoined _ _ ps => some ps
  | _ => none

/-- Every `error` event in the list is addressed to the emitting socket
itself. -/
def errorsToSenderOnly (emits : List Emit) : Prop :=
  ∀ e ∈ emits, e.event = "error" → e.target = Target.sender

instance (emits : List Emit) : Decidable (errorsToSenderOnly emits) := by
  unfold errorsToSenderOnly; infer_instance

/-! ## Concrete fixtures used by counterexamples and witnesses -/

/-- The host's persisted participant entry. -/
def hostPart : Participant :=
  ⟨"A", "Alice", some false, some true, true, none⟩

/-- An active meeting at capacity: `maxParticipants = 1` and one persisted
participant (the host). -/
def meetFull : Meeting :=
  ⟨"ABC12345", "A", true, [hostPart], 1, false, none⟩

/-- An active password-protected meeting with room to spare. -/
def meetPw : Meeting :=
  ⟨"PW123456", "A", true, [hostPart], 50, true, some "secret"⟩

/-- An active meeting with room to spare and no password. -/
def meetOpen : Meeting :=
  ⟨"ABC12345", "A", true, [hostPart], 10, false, none⟩

/-- The host's socket (authenticated). -/
def sockA : SocketState := ⟨"sA", some "A", "Alice", true, none⟩

/-- An authenticated socket for a user who is not yet a participant. -/
def sockB : SocketState := ⟨"sB", some "B", "Bob", true, none⟩

/-- A guest socket currently joined to `ABC12345`. -/
def sockG : SocketState := ⟨"sG", none, "Guest", false, some "ABC12345"⟩

/-- An authenticated socket for a user with no room
(`currentMeeting = none`). -/
def sockX : SocketState := ⟨"sX", some "X", "Xavier", true, none⟩

/-- The host's socket while joined to `ABC12345`. -/
def sockAin : SocketState := ⟨"sA", some "A", "Alice", true, some "ABC12345"⟩

/-- An active meeting one below capacity: `maxParticipants = 2`, one
persisted participant. -/
def meetCap2 : Meeting := ⟨"CAP20000", "A", true, [hostPart], 2, false, none⟩

/-! ## Helper lemmas -/

/-- The shared join tail never touches the persisted store. -/
theorem joinTail_db (db : List Meeting) (rooms : Rooms) (sock : SocketState)
    (mid : String) (m : Meeting) : (joinTail db rooms sock mid m).db = db := by
  rcases sock with ⟨sid, uid, un, au, cm⟩
  cases uid <;> rfl

/-- Membership operations do not change the configured capacity. -/
theorem runOp_maxParticipants (m : Meeting) (op : MeetingOp) :
    (runOp m op).maxParticipants = m.maxParticipants := by
  cases op with
  | add u n =>
    cases hf : m.participants.find? (fun p => p.userId == u) with
    | some p => simp [runOp, Meeting.addParticipant, hf]
    | none =>
      by_cases hc : m.participants.length ≥ m.maxParticipants
      · simp [runOp, Meeting.addParticipant, hf, hc]
      · simp [runOp, Meeting.addParticipant, hf, hc]
  | remove u => rfl

/-- One membership operation preserves the capacity bound. -/
theorem runOp_length_le (m : Meeting) (op : MeetingOp)
    (h : m.participants.length ≤ m.maxParticipants) :
    (runOp m op).participants.length ≤ m.maxParticipants := by
  cases op with
  | add u n =>
    cases hf : m.participants.find? (fun p => p.userId == u) with
    | some p =>
      simp only [runOp, Meeting.addParticipant, hf]
      exact h
    | none =>
      by_cases hc : m.participants.length ≥ m.maxParticipants
      · simp only [runOp, Meeting.addParticipant, hf, if_pos hc]
        exact h
      · simp only [runOp, Meeting.addParticipant, hf, if_neg hc, List.length_append,
          List.length_cons, List.length_nil]
        omega
  | remove u =>
    simp only [runOp, Meeting.removeParticipant]
    exact le_trans (List.length_filter_le _ _) h

/-- Any sequence of `addParticipant`/`removeParticipant` operations keeps
the persisted participant count within the configured capacity. -/
theorem runOps_capacity (m : Meeting) (ops : List MeetingOp)
    (h : m.participants.length ≤ m.maxParticipants) :
    (runOps m ops).participants.length ≤ m.maxParticipants := by
  induction ops generalizing m with
  | nil => exact h
  | cons op rest ih =>
    have h2 := runOp_maxParticipants m op
    have h1 : (runOp m op).participants.length ≤ (runOp m op).maxParticipants := by
      rw [h2]; exact runOp_length_le m op h
    have h3 := ih (runOp m op) h1
    rw [h2] at h3
    exact h3

/-- A user absent from every entry is not found by the lookup
predicate. -/
theorem find?_none_of_all {ps : List Participant} {u : String}
    (h : ∀ p ∈ ps, p.userId ≠ u) :
    ps.find? (fun p => p.userId == u) = none := by
  rw [List.find?_eq_none]
  intro p hp
  simpa using h p hp

/-- Both emits of the join tail address errors to the sender only. -/
theorem joinTail_errors (db : List Meeting) (rooms : Rooms) (sock : SocketState)
    (mid : String) (m : Meeting) :
    errorsToSenderOnly (joinTail db rooms sock mid m).emits := by
  rcases sock with ⟨sid, uid, un, au, cm⟩
  cases uid with
  | none =>
    intro e he hev
    simp only [joinTail, List.mem_cons, List.not_mem_nil, or_false] at he
    rcases he with rfl | rfl
    · simp at hev
    · rfl
  | some u =>
    intro e he hev
    simp only [joinTail, List.mem_cons, List.not_mem_nil, or_false] at he
    rcases he with rfl | rfl
    · simp at hev
    · simp at hev

/-- The `join-meeting` handler emits errors to the sender only. -/
theorem joinMeeting_errors (db : List Meeting) (rooms : Rooms) (sock : SocketState)
    (data : Option String) :
    errorsToSenderOnly (joinMeeting db rooms sock data).emits := by
  cases data with
  | none =>
    intro e he hev
    simp only [joinMeeting, List.mem_singleton] at he
    subst he; rfl
  | some mid =>
    cases hf : findActiveMeeting db mid with
    | none =>
      intro e he hev
      simp only [joinMeeting, hf, List.mem_singleton] at he
      subst he; rfl
    | some meeting =>
      by_cases ha : sock.isAuthenticated = true
      · cases hu : sock.userId with
        | none =>
          intro e he hev
          simp only [joinMeeting, hf, ha, hu, if_true, List.mem_singleton] at he
          subst he; rfl
        | some uid =>
          by_cases hm : meeting.participants.any (fun p => p.userId == uid) = true
          · intro e he hev
            simp only [joinMeeting, hf, ha, hu, hm, if_true] at he
            exact joinTail_errors _ _ _ _ _ e he hev
          · intro e he hev
            simp only [joinMeeting, hf, ha, hu, if_true] at he
            rw [if_neg hm] at he
            exact joinTail_errors _ _ _ _ _ e he hev
      · intro e he hev
        have ha' : sock.isAuthenticated = false := by
          cases h : sock.isAuthenticated
          · rfl
          · exact absurd h ha
        simp only [joinMeeting, hf, ha', Bool.false_eq_true, if_false] at he
        exact joinTail_errors _ _ _ _ _ e he hev

/-- The `send-message` handler emits errors to the sender only. -/
theorem sendMessage_errors (sock : SocketState) (data : Option MsgData) (now : Nat) :
    errorsToSenderOnly (sendMessage sock data now) := by
  cases data with
  | none =>
    intro e he hev
    simp only [sendMessage, List.mem_singleton] at he
    subst he; rfl
  | some d =>
    by_cases hc : sock.currentMeeting ≠ some d.meetingId
    · intro e he hev
      simp only [sendMessage, if_pos hc, List.mem_singleton] at he
      subst he; rfl
    · cases hm : d.message with
      | none =>
        intro e he hev
        simp only [sendMessage, if_neg hc, hm, List.mem_singleton] at he
        subst he; rfl
      | some msg =>
        intro e he hev
        simp only [sendMessage, if_neg hc, hm, List.mem_singleton] at he
        subst he
        simp at hev

/-- The `update-participant-status` handler emits errors to the sender
only. -/
theorem updateStatus_errors (db : List Meeting) (sock : SocketState)
    (data : Option StatusData) :
    errorsToSenderOnly (updateParticipantStatus db sock data).2 := by
  cases data with
  | none =>
    intro e he hev
    simp only [updateParticipantStatus, List.mem_singleton] at he
    subst he; rfl
  | some d =>
    by_cases hc : sock.currentMeeting ≠ some d.meetingId
    · intro e he hev
      simp only [updateParticipantStatus, if_pos hc, List.mem_singleton] at he
      subst he; rfl
    · cases hf : findActiveMeeting db d.meetingId with
      | none =>
        intro e he hev
        simp only [updateParticipantStatus, if_neg hc, hf, List.not_mem_nil] at he
      | some m =>
        cases hu : sock.userId with
        | none =>
          by_cases hemp : m.participants.isEmpty = true
          · intro e he hev
            simp only [updateParticipantStatus, if_neg hc, hf, hu, hemp, if_true,
              List.not_mem_nil] at he
          · intro e he hev
            simp only [updateParticipantStatus, if_neg hc, hf, hu] at he
            rw [if_neg hemp] at he
            simp only [List.mem_singleton] at he
            subst he; rfl
        | some uid =>
          cases hfind : m.participants.find? (fun p => p.userId == uid) with
          | none =>
            intro e he hev
            simp only [updateParticipantStatus, if_neg hc, hf, hu, hfind,
              List.not_mem_nil] at he
          | some p =>
            intro e he hev
            simp only [updateParticipantStatus, if_neg hc, hf, hu, hfind,
              List.mem_singleton] at he
            subst he
            simp at hev

/-- The `mute-participant` handler emits errors to the sender only. -/
theorem mute_errors (db : List Meeting) (sock : SocketState) (data : Option MuteData) :
    errorsToSenderOnly (muteParticipant db sock data) := by
  cases data with
  | none =>
    intro e he hev
    simp only [muteParticipant, List.mem_singleton] at he
    subst he; rfl
  | some d =>
    cases hf : findActiveMeeting db d.meetingId with
    | none =>
      intro e he hev
      simp only [muteParticipant, hf, List.mem_singleton] at he
      subst he; rfl
    | some m =>
      cases hu : sock.userId with
      | none =>
        intro e he hev
        simp only [muteParticipant, hf, hu, List.mem_singleton] at he
        subst he; rfl
      | some uid =>
        by_cases hh : m.isUserHost uid = true
        · intro e he hev
          simp only [muteParticipant, hf, hu, hh, if_true, List.mem_singleton] at he
          subst he
          simp at hev
        · intro e he hev
          simp only [muteParticipant, hf, hu] at he
          rw [if_neg hh] at he
          simp only [List.mem_singleton] at he
          subst he; rfl

/-- The `leave-meeting` handler never emits an error. -/
theorem leave_noError (rooms : Rooms) (sock : SocketState) :
    errorsToSenderOnly (leaveMeeting rooms sock).2.2 := by
  cases hc : sock.currentMeeting with
  | none =>
    intro e he hev
    simp only [leaveMeeting, hc, List.not_mem_nil] at he
  | some mid =>
    intro e he hev
    simp only [leaveMeeting, hc, List.mem_singleton] at he
    subst he
    simp at hev

/-- A WebRTC relay that does not throw never emits an error event. -/
theorem webrtc_ok_noError :
    (∀ (sock : SocketState) (d : OfferData) (es : List Emit),
      webrtcOffer sock (some d) = Except.ok es → ∀ e ∈ es, e.event ≠ "error") ∧
    (∀ (sock : SocketState) (d : AnswerData) (es : List Emit),
      webrtcAnswer sock (some d) = Except.ok es → ∀ e ∈ es, e.event ≠ "error") ∧
    (∀ (sock : SocketState) (d : IceData) (es : List Emit),
      webrtcIceCandidate sock (some d) = Except.ok es → ∀ e ∈ es, e.event ≠ "error") := by
  refine ⟨?_, ?_, ?_⟩ <;>
  · intro sock d es hes e he
    simp only [webrtcOffer, webrtcAnswer, webrtcIceCandidate, Except.ok.injEq] at hes
    subst hes
    simp only [List.mem_singleton] at he
    subst he
    simp

/-! ## Claims -/

/-- C1, counterexample.  The claim says a join at capacity fails with
`RoomFull` and the member count never exceeds `maxParticipants`.  In the
code, the socket `join-meeting` handler performs no capacity check: with
`meetFull` at capacity (1 participant, `maxParticipants = 1`), the host
connects and then user B joins; B's join emits no error, emits
`meeting-joined` (success), pushes B into the persisted participant list
(now 2 > 1) and registers a second live room member (2 > 1). -/
theorem C1_counterexample :
    meetFull.participants.length = meetFull.maxParticipants ∧
    (let outA := joinMeeting [meetFull] [] sockA (some "ABC12345")
     let outB := joinMeeting outA.db outA.rooms sockB (some "ABC12345")
     (∀ e ∈ outB.emits, e.event ≠ "error") ∧
     outB.emits.map Emit.event = ["user-connected", "meeting-joined"] ∧
     outB.db.map (fun m => m.participants.length) = [2] ∧
     (roomMembers outB.rooms "ABC12345").length = 2 ∧
     2 > meetFull.maxParticipants) := by decide

/-- C1, amended.  Capacity is enforced only by `Meeting.addParticipant`
(used by the REST join route, not by the socket handler): a sequence of
`addParticipant`/`removeParticipant` operations never pushes the persisted
participant count above `maxParticipants`; an add of a new user at or above
capacity throws `'Meeting is full'` and registers nothing; an add strictly
below capacity succeeds and appends exactly one entry. -/
theorem C1_amended :
    (∀ (m : Meeting) (ops : List MeetingOp),
      m.participants.length ≤ m.maxParticipants →
      (runOps m ops).participants.length ≤ m.maxParticipants) ∧
    (∀ (m : Meeting) (u n : String) (hFlag : Bool),
      (∀ p ∈ m.participants, p.userId ≠ u) →
      m.maxParticipants ≤ m.participants.length →
      m.addParticipant u n hFlag = Except.error "Meeting is full") ∧
    (∀ (m : Meeting) (u n : String) (hFlag : Bool),
      (∀ p ∈ m.participants, p.userId ≠ u) →
      m.participants.length + 1 ≤ m.maxParticipants →
      ∃ q : Participant, m.addParticipant u n hFlag =
        Except.ok ({ m with participants := m.participants ++ [q] }, q) ∧
        (m.participants ++ [q]).length = m.participants.length + 1) := by
  refine ⟨runOps_capacity, ?_, ?_⟩
  · intro m u n hFlag habs hge
    simp only [Meeting.addParticipant, find?_none_of_all habs]
    rw [if_pos (by omega)]
  · intro m u n hFlag habs hlt
    refine ⟨⟨u, n, some false, some true, hFlag, none⟩, ?_, by simp⟩
    simp only [Meeting.addParticipant, find?_none_of_all habs]
    rw [if_neg (by omega)]

/-- C1, witness: the capacity bound under a concrete operation sequence,
a concrete full-meeting rejection, and a concrete success at
capacity−1. -/
theorem C1_witness :
    (runOps meetOpen [MeetingOp.add "B" "Bob", MeetingOp.add "C" "Cara",
      MeetingOp.remove "B"]).participants.length ≤ meetOpen.maxParticipants ∧
    meetFull.addParticipant "B" "Bob" false = Except.error "Meeting is full" ∧
    (∃ q : Participant, meetCap2.addParticipant "B" "Bob" false =
      Except.ok ({ meetCap2 with participants := meetCap2.participants ++ [q] }, q) ∧
      (meetCap2.participants ++ [q]).length = meetCap2.participants.length + 1) :=
  ⟨C1_amended.1 meetOpen _ (by decide),
   C1_amended.2.1 meetFull "B" "Bob" false (by decide) (by decide),
   C1_amended.2.2 meetCap2 "B" "Bob" false (by decide) (by decide)⟩

/-- C2, counterexample.  The claim says every join to a meeting with
`requirePassword` set compares the credential and fails with
`Unauthorized` on mismatch.  The socket `join-meeting` handler accepts no
credential at all and performs no password check: an authenticated user
joins the password-protected `meetPw` with no password, no error is
emitted, the join succeeds and the participant is registered. -/
theorem C2_counterexample :
    meetPw.requirePassword = true ∧ meetPw.meetingPassword = some "secret" ∧
    (let out := joinMeeting [meetPw] [] sockB (some "PW123456")
     (∀ e ∈ out.emits, e.event ≠ "error") ∧
     out.emits.map Emit.event = ["user-connected", "meeting-joined"] ∧
     out.db.map (fun m => m.participants.length) = [2]) := by decide

/-- C2, amended.  Only the authenticated REST join route checks the
password: when `requirePassword` is set and the provided credential does
not match, it answers 401 `'Invalid meeting password'`, leaves the store
unchanged and broadcasts nothing; the socket join path never checks a
password. -/
theorem C2_amended :
    ∀ (db : List Meeting) (uid un mid : String) (pw : Option String) (m : Meeting),
      findActiveMeeting db mid = some m → m.requirePassword = true →
      passwordMismatch m.meetingPassword pw = true →
      restJoin db uid un mid pw = (db, RestResult.invalidPassword, []) := by
  intro db uid un mid pw m hf hr hm
  simp [restJoin, hf, hr, hm]

/-- C2, witness: a concrete REST join with a wrong password is rejected
with no store change and no emit. -/
theorem C2_witness :
    restJoin [meetPw] "B" "Bob" "PW123456" (some "wrong") =
      ([meetPw], RestResult.invalidPassword, []) :=
  C2_amended [meetPw] "B" "Bob" "PW123456" (some "wrong") meetPw
    (by decide) (by decide) (by decide)

/-- C3, counterexample.  The claim says a signaling relay from a sender
who is not a member of the room fails with `NotInRoom` and forwards
nothing.  In the code the relay handlers check nothing: `sockX` has no
current room, yet its offer is forwarded to the room named in the payload
(and no error is produced). -/
theorem C3_counterexample :
    sockX.currentMeeting = none ∧
    webrtcOffer sockX (some ⟨"B", "sdp", "ABC12345"⟩) =
      Except.ok [⟨Target.others "ABC12345", "webrtc-offer",
        Payload.webrtcOffer "X" "Xavier" "sdp"⟩] := ⟨rfl, rfl⟩

/-- C3, amended.  The three signaling relays forward unconditionally, with
no membership check, to the members of the payload's room excluding the
sender; the payload is passed through unmodified together with the
sender's user identifier (or guest identifier), and the sender's name is
included only on offers — answers and ICE candidates carry just
`fromUserId`. -/
theorem C3_amended :
    ∀ (sock : SocketState) (od : OfferData) (ad : AnswerData) (cd : IceData),
      webrtcOffer sock (some od) =
        Except.ok [⟨Target.others od.meetingId, "webrtc-offer",
          Payload.webrtcOffer (sock.userId.getD ("guest-" ++ sock.sid))
            sock.userName od.offer⟩] ∧
      webrtcAnswer sock (some ad) =
        Except.ok [⟨Target.others ad.meetingId, "webrtc-answer",
          Payload.webrtcAnswer (sock.userId.getD ("guest-" ++ sock.sid)) ad.answer⟩] ∧
      webrtcIceCandidate sock (some cd) =
        Except.ok [⟨Target.others cd.meetingId, "webrtc-ice-candidate",
          Payload.webrtcIce (sock.userId.getD ("guest-" ++ sock.sid)) cd.candidate⟩] := by
  intro sock od ad cd
  exact ⟨rfl, rfl, rfl⟩

/-- C4, counterexample.  The claim says no handler throws an uncaught
exception on any input.  The WebRTC relay handlers have no `try`/`catch`:
a `null` payload makes the destructuring throw, modelled as
`Except.error ()`. -/
theorem C4_counterexample :
    webrtcOffer sockB none = Except.error () ∧
    webrtcAnswer sockB none = Except.error () ∧
    webrtcIceCandidate sockB none = Except.error () :=
  ⟨rfl, rfl, rfl⟩

/-- C4, amended.  The join, chat, status and mute handlers (each wrapped
in `try`/`catch`) and the leave handler address every `error` event to the
originating session only; the WebRTC relays emit no error events when they
do not throw, but they have no catch, so a `null` payload raises an
uncaught exception. -/
theorem C4_amended :
    (∀ (db : List Meeting) (rooms : Rooms) (sock : SocketState) (data : Option String),
      errorsToSenderOnly (joinMeeting db rooms sock data).emits) ∧
    (∀ (sock : SocketState) (data : Option MsgData) (now : Nat),
      errorsToSenderOnly (sendMessage sock data now)) ∧
    (∀ (db : List Meeting) (sock : SocketState) (data : Option StatusData),
      errorsToSenderOnly (updateParticipantStatus db sock data).2) ∧
    (∀ (db : List Meeting) (sock : SocketState) (data : Option MuteData),
      errorsToSenderOnly (muteParticipant db sock data)) ∧
    (∀ (rooms : Rooms) (sock : SocketState),
      errorsToSenderOnly (leaveMeeting rooms sock).2.2) ∧
    (∀ (sock : SocketState) (d : OfferData) (es : List Emit),
      webrtcOffer sock (some d) = Except.ok es → ∀ e ∈ es, e.event ≠ "error") ∧
    (∀ (sock : SocketState) (d : AnswerData) (es : List Emit),
      webrtcAnswer sock (some d) = Except.ok es → ∀ e ∈ es, e.event ≠ "error") ∧
    (∀ (sock : SocketState) (d : IceData) (es : List Emit),
      webrtcIceCandidate sock (some d) = Except.ok es → ∀ e ∈ es, e.event ≠ "error") :=
  ⟨joinMeeting_errors, sendMessage_errors, updateStatus_errors, mute_errors,
   leave_noError, webrtc_ok_noError.1, webrtc_ok_noError.2.1, webrtc_ok_noError.2.2⟩

/-- C4, witness: a concrete failed join emits its error event to the
sender. -/
theorem C4_witness :
    errEmit "Meeting not found" ∈ (joinMeeting [] [] sockB (some "ZZZ")).emits ∧
    (errEmit "Meeting not found").target = Target.sender :=
  ⟨by decide,
   C4_amended.1 [] [] sockB (some "ZZZ") (errEmit "Meeting not found")
     (by decide) (by decide)⟩

/-- C5, counterexample.  The claim says a rejoin by a user with an existing
persisted entry never errors, regardless of the member count.  The REST
join route checks capacity before the rejoin check: user A is already a
participant of `meetFull` (at capacity), yet A's rejoin answers
`'Meeting is full'` instead of reusing the entry. -/
theorem C5_counterexample :
    (meetFull.participants.any (fun p => p.userId == "A")) = true ∧
    meetFull.participants.length = meetFull.maxParticipants ∧
    restJoin [meetFull] "A" "Alice" "ABC12345" none =
      ([meetFull], RestResult.meetingFull, []) := by decide

/-- C5, amended.  A rejoin reuses the existing entry and never creates a
duplicate: `Meeting.addParticipant` returns the existing entry unchanged
at any member count, the REST route reports `'Already in meeting'` with an
unchanged store when the member count is strictly below capacity (at or
above capacity the REST route fails with `'Meeting is full'` first), and a
socket rejoin leaves the persisted store unchanged. -/
theorem C5_amended :
    (∀ (m : Meeting) (u n : String) (hFlag : Bool) (p : Participant),
      m.participants.find? (fun q => q.userId == u) = some p →
      m.addParticipant u n hFlag = Except.ok (m, p)) ∧
    (∀ (db : List Meeting) (uid un mid : String) (pw : Option String)
        (m : Meeting) (p : Participant),
      findActiveMeeting db mid = some m →
      (m.requirePassword && passwordMismatch m.meetingPassword pw) = false →
      m.participants.length < m.maxParticipants →
      m.participants.find? (fun q => q.userId == uid) = some p →
      restJoin db uid un mid pw = (db, RestResult.alreadyIn p, [])) ∧
    (∀ (db : List Meeting) (rooms : Rooms) (sock : SocketState) (mid : String)
        (meeting : Meeting) (uid : String),
      findActiveMeeting db mid = some meeting →
      sock.isAuthenticated = true → sock.userId = some uid →
      meeting.participants.any (fun p => p.userId == uid) = true →
      (joinMeeting db rooms sock (some mid)).db = db) := by
  refine ⟨?_, ?_, ?_⟩
  · intro m u n hFlag p hf
    simp [Meeting.addParticipant, hf]
  · intro db uid un mid pw m p hf hpw hlt hfind
    simp [restJoin, hf, hpw, Nat.not_le.mpr hlt, hfind]
  · intro db rooms sock mid meeting uid hf hauth huid hmem
    simp only [joinMeeting, hf, hauth, huid, hmem, if_true]
    exact joinTail_db _ _ _ _ _

/-- C5, witness: concrete idempotent rejoins through all three paths. -/
theorem C5_witness :
    meetOpen.addParticipant "A" "Alice" false = Except.ok (meetOpen, hostPart) ∧
    restJoin [meetOpen] "A" "Alice" "ABC12345" none =
      ([meetOpen], RestResult.alreadyIn hostPart, []) ∧
    (joinMeeting [meetOpen] [] sockA (some "ABC12345")).db = [meetOpen] :=
  ⟨C5_amended.1 meetOpen "A" "Alice" false hostPart (by decide),
   C5_amended.2.1 [meetOpen] "A" "Alice" "ABC12345" none meetOpen hostPart
     (by decide) (by decide) (by decide) (by decide),
   C5_amended.2.2 [meetOpen] [] sockA "ABC12345" meetOpen "A"
     (by decide) (by decide) (by decide) (by decide)⟩

/-- C6, counterexample.  The claim says every successful join broadcasts a
membership-changed event containing the updated full member list to the
existing members.  In the code the only event the existing members receive
(`user-connected`) carries just the joiner's identity and no member list:
with B joining `meetOpen` while `sA` is in the room, `sA` receives the
broadcast, yet no event addressed to the others carries any participant
list. -/
theorem C6_counterexample :
    (let out := joinMeeting [meetOpen] [("ABC12345", ["sA"])] sockB (some "ABC12345")
     deliverTo out.rooms out.sock (Target.others "ABC12345") = ["sA"] ∧
     (∀ e ∈ out.emits, e.target = Target.others "ABC12345" →
        payloadMemberList e.payload = none) ∧
     out.emits.map Emit.event = ["user-connected", "meeting-joined"]) := by decide

/-- C6, amended.  On an authenticated join (rejoin or first join) the
existing members receive a `user-connected` event carrying only the
joiner's identity (user id, name, socket id, guest flag), while the joiner
receives `meeting-joined` with the persisted participant list and the host
flag; a guest join broadcasts `user-connected` but the joiner receives a
caught error instead of the member list (`isUserHost` throws on the null
user id). -/
theorem C6_amended :
    (∀ (db : List Meeting) (rooms : Rooms) (sock : SocketState) (mid : String)
        (meeting : Meeting) (uid : String),
      findActiveMeeting db mid = some meeting →
      sock.isAuthenticated = true → sock.userId = some uid →
      meeting.participants.any (fun p => p.userId == uid) = true →
      (joinMeeting db rooms sock (some mid)).emits =
        [⟨Target.others mid, "user-connected",
          Payload.userConnected uid sock.userName sock.sid false⟩,
         ⟨Target.sender, "meeting-joined",
          Payload.meetingJoined mid (meeting.participants.map participantView)
            (meeting.isUserHost uid)⟩]) ∧
    (∀ (db : List Meeting) (rooms : Rooms) (sock : SocketState) (mid : String)
        (meeting : Meeting) (uid : String),
      findActiveMeeting db mid = some meeting →
      sock.isAuthenticated = true → sock.userId = some uid →
      meeting.participants.any (fun p => p.userId == uid) = false →
      (joinMeeting db rooms sock (some mid)).emits =
        [⟨Target.others mid, "user-connected",
          Payload.userConnected uid sock.userName sock.sid false⟩,
         ⟨Target.sender, "meeting-joined",
          Payload.meetingJoined mid
            ((meeting.participants ++
              [({ userId := uid, name := sock.userName, isMuted := some false,
                  isVideoOn := some true, isHost := false,
                  socketId := some sock.sid } : Participant)]).map
                participantView)
            (meeting.isUserHost uid)⟩]) ∧
    (∀ (db : List Meeting) (rooms : Rooms) (sock : SocketState) (mid : String)
        (meeting : Meeting),
      findActiveMeeting db mid = some meeting →
      sock.isAuthenticated = false → sock.userId = none →
      (joinMeeting db rooms sock (some mid)).emits =
        [⟨Target.others mid, "user-connected",
          Payload.userConnected ("guest-" ++ sock.sid) sock.userName sock.sid true⟩,
         errEmit "Failed to join meeting"]) := by
  refine ⟨?_, ?_, ?_⟩
  · intro db rooms sock mid meeting uid hf hauth huid hmem
    simp [joinMeeting, hf, hauth, huid, hmem, joinTail, Meeting.isUserHost]
  · intro db rooms sock mid meeting uid hf hauth huid hmem
    simp [joinMeeting, hf, hauth, huid, hmem, joinTail, Meeting.isUserHost]
  · intro db rooms sock mid meeting hf hauth huid
    simp [joinMeeting, hf, hauth, huid, joinTail, errEmit]

/-- C6, witness: the exact pair of events of a concrete first join. -/
theorem C6_witness :
    (joinMeeting [meetOpen] [("ABC12345", ["sA"])] sockB (some "ABC12345")).emits =
      [⟨Target.others "ABC12345", "user-connected",
        Payload.userConnected "B" "Bob" "sB" false⟩,
       ⟨Target.sender, "meeting-joined",
        Payload.meetingJoined "ABC12345"
          ((meetOpen.participants ++
            [({ userId := "B", name := "Bob", isMuted := some false,
                isVideoOn := some true, isHost := false,
                socketId := some "sB" } : Participant)]).map
              participantView)
          (meetOpen.isUserHost "B")⟩] :=
  C6_amended.2.1 [meetOpen] [("ABC12345", ["sA"])] sockB "ABC12345" meetOpen "B"
    (by decide) (by decide) (by decide) (by decide)

/-- C7: when the sender's current room equals the payload's room id and a
text is given, the handler broadcasts exactly one `new-message` record
(trimmed text, `id = Date.now().toString()`, sender identity and type),
delivered to the whole room — a single record, hence the same `id` for
every recipient — and the sender receives it too whenever it is a room
member; when the current room does not match, the handler fails with
`'Not in this meeting'` and broadcasts nothing. -/
theorem C7_theorem :
    (∀ (sock : SocketState) (d : MsgData) (msg : String) (now : Nat) (rooms : Rooms),
      sock.currentMeeting = some d.meetingId → d.message = some msg →
      sendMessage sock (some d) now =
        [⟨Target.room d.meetingId, "new-message",
          Payload.newMessage (toString now) sock.userId sock.userName
            (jsTrim msg) (d.type_.getD "text") now⟩] ∧
      deliverTo rooms sock (Target.room d.meetingId) = roomMembers rooms d.meetingId ∧
      (sock.sid ∈ roomMembers rooms d.meetingId →
        sock.sid ∈ deliverTo rooms sock (Target.room d.meetingId))) ∧
    (∀ (sock : SocketState) (d : MsgData) (now : Nat),
      sock.currentMeeting ≠ some d.meetingId →
      sendMessage sock (some d) now = [errEmit "Not in this meeting"]) := by
  constructor
  · intro sock d msg now rooms h1 h2
    refine ⟨?_, rfl, fun h => h⟩
    simp only [sendMessage, h2]
    rw [if_neg (by simp [h1])]
  · intro sock d now hne
    simp only [sendMessage, if_pos hne]

/-- C7, witness: a concrete in-room send (trimmed text, delivery to the
sender's room) and a concrete out-of-room rejection. -/
theorem C7_witness :
    sendMessage sockAin (some ⟨"ABC12345", some "  hi ", none⟩) 7 =
      [⟨Target.room "ABC12345", "new-message",
        Payload.newMessage "7" (some "A") "Alice" "hi" "text" 7⟩] ∧
    "sA" ∈ deliverTo [("ABC12345", ["sA", "sB"])] sockAin (Target.room "ABC12345") ∧
    sendMessage sockB (some ⟨"ABC12345", some "hi", none⟩) 7 =
      [errEmit "Not in this meeting"] :=
  ⟨(C7_theorem.1 sockAin ⟨"ABC12345", some "  hi ", none⟩ "  hi " 7
      [("ABC12345", ["sA", "sB"])] (by decide) (by decide)).1,
   (C7_theorem.1 sockAin ⟨"ABC12345", some "  hi ", none⟩ "  hi " 7
      [("ABC12345", ["sA", "sB"])] (by decide) (by decide)).2.2 (by decide),
   C7_theorem.2 sockB ⟨"ABC12345", some "hi", none⟩ 7 (by decide)⟩

/-- C8, counterexample.  The claim says every non-host `requestMute` fails
with `Forbidden`.  A guest session is not the host, but its request makes
`isUserHost(null)` throw, so the catch block answers
`'Failed to mute participant'` — not the Forbidden message
`'Not authorized to mute participants'` — and no `mute-request` is
emitted. -/
theorem C8_counterexample :
    sockG.userId = none ∧ meetFull.hostId = "A" ∧
    muteParticipant [meetFull] sockG (some ⟨"ABC12345", "A"⟩) =
      [errEmit "Failed to mute participant"] ∧
    errEmit "Failed to mute participant" ≠
      errEmit "Not authorized to mute participants" ∧
    (∀ e ∈ muteParticipant [meetFull] sockG (some ⟨"ABC12345", "A"⟩),
      e.event ≠ "mute-request") := by decide

/-- C8, amended.  An authenticated non-host requester fails with
`'Not authorized to mute participants'` and no `mute-request` is emitted;
a guest requester also emits no `mute-request` but fails through the catch
block with `'Failed to mute participant'`; a host's request broadcasts
`mute-request` carrying the target's user id, and the handler never writes
the persisted store (its model does not touch the meeting list), so no
server-side forced mute occurs. -/
theorem C8_amended :
    (∀ (db : List Meeting) (sock : SocketState) (d : MuteData) (m : Meeting)
        (uid : String),
      findActiveMeeting db d.meetingId = some m → sock.userId = some uid →
      m.isUserHost uid = false →
      muteParticipant db sock (some d) =
        [errEmit "Not authorized to mute participants"]) ∧
    (∀ (db : List Meeting) (sock : SocketState) (d : MuteData) (m : Meeting)
        (uid : String),
      findActiveMeeting db d.meetingId = some m → sock.userId = some uid →
      m.isUserHost uid = true →
      muteParticipant db sock (some d) =
        [⟨Target.room d.meetingId, "mute-request",
          Payload.muteRequest d.targetUserId true⟩]) ∧
    (∀ (db : List Meeting) (sock : SocketState) (d : MuteData) (m : Meeting),
      findActiveMeeting db d.meetingId = some m → sock.userId = none →
      muteParticipant db sock (some d) = [errEmit "Failed to mute participant"]) := by
  refine ⟨?_, ?_, ?_⟩
  · intro db sock d m uid hf hu hh
    simp [muteParticipant, hf, hu, hh]
  · intro db sock d m uid hf hu hh
    simp [muteParticipant, hf, hu, hh]
  · intro db sock d m hf hu
    simp [muteParticipant, hf, hu]

/-- C8, witness: concrete non-host rejection, host broadcast, and guest
catch-path rejection. -/
theorem C8_witness :
    muteParticipant [meetOpen] sockB (some ⟨"ABC12345", "A"⟩) =
      [errEmit "Not authorized to mute participants"] ∧
    muteParticipant [meetOpen] sockA (some ⟨"ABC12345", "B"⟩) =
      [⟨Target.room "ABC12345", "mute-request", Payload.muteRequest "B" true⟩] ∧
    muteParticipant [meetOpen] sockG (some ⟨"ABC12345", "A"⟩) =
      [errEmit "Failed to mute participant"] :=
  ⟨C8_amended.1 [meetOpen] sockB ⟨"ABC12345", "A"⟩ meetOpen "B"
     (by decide) (by decide) (by decide),
   C8_amended.2.1 [meetOpen] sockA ⟨"ABC12345", "B"⟩ meetOpen "A"
     (by decide) (by decide) (by decide),
   C8_amended.2.2 [meetOpen] sockG ⟨"ABC12345", "A"⟩ meetOpen
     (by decide) (by decide)⟩

/-- C9, counterexample.  The claim says every in-room `updateStatus`
updates the persisted entry and broadcasts `participant-status-updated` to
the whole room.  A guest in the room (`sockG`, meeting with a nonempty
participant list) instead hits the throwing `find` callback: the handler
answers `'Failed to update status'`, changes nothing and broadcasts no
status event. -/
theorem C9_counterexample :
    sockG.currentMeeting = some "ABC12345" ∧
    updateParticipantStatus [meetFull] sockG (some ⟨"ABC12345", some true, none⟩) =
      ([meetFull], [errEmit "Failed to update status"]) ∧
    (∀ e ∈ (updateParticipantStatus [meetFull] sockG
        (some ⟨"ABC12345", some true, none⟩)).2,
      e.event ≠ "participant-status-updated") := by decide

/-- C9, amended.  A session with no current room fails with
`'Not in this meeting'`, no broadcast and no state change; an
authenticated in-room sender with a persisted entry gets both status
fields of that entry overwritten with the request values (the handler
always assigns both keys), the meeting saved, and
`participant-status-updated` broadcast to the whole room including the
sender; an in-room sender without a persisted entry produces a silent
no-op.  The session handle itself carries no status flags to update. -/
theorem C9_amended :
    (∀ (db : List Meeting) (sock : SocketState) (d : StatusData),
      sock.currentMeeting = none →
      updateParticipantStatus db sock (some d) =
        (db, [errEmit "Not in this meeting"])) ∧
    (∀ (db : List Meeting) (sock : SocketState) (d : StatusData) (m : Meeting)
        (uid : String) (p : Participant),
      sock.currentMeeting = some d.meetingId →
      findActiveMeeting db d.meetingId = some m → sock.userId = some uid →
      m.participants.find? (fun q => q.userId == uid) = some p →
      updateParticipantStatus db sock (some d) =
        (saveMeeting db
          { m with participants :=
                     updateFirstParticipant m.participants uid d.isMuted d.isVideoOn },
         [⟨Target.room d.meetingId, "participant-status-updated",
           Payload.statusUpdated (some uid) sock.userName d.isMuted d.isVideoOn⟩])) ∧
    (∀ (db : List Meeting) (sock : SocketState) (d : StatusData) (m : Meeting)
        (uid : String),
      sock.currentMeeting = some d.meetingId →
      findActiveMeeting db d.meetingId = some m → sock.userId = some uid →
      m.participants.find? (fun q => q.userId == uid) = none →
      updateParticipantStatus db sock (some d) = (db, [])) := by
  refine ⟨?_, ?_, ?_⟩
  · intro db sock d h
    simp [updateParticipantStatus, h]
  · intro db sock d m uid p h1 hf hu hfind
    simp only [updateParticipantStatus, hf, hu, hfind]
    rw [if_neg (by simp [h1])]
  · intro db sock d m uid h1 hf hu hfind
    simp only [updateParticipantStatus, hf, hu, hfind]
    rw [if_neg (by simp [h1])]

/-- C9, witness: a concrete out-of-room rejection and a concrete in-room
update with its room-wide broadcast. -/
theorem C9_witness :
    updateParticipantStatus [meetOpen] sockB (some ⟨"ABC12345", some true, none⟩) =
      ([meetOpen], [errEmit "Not in this meeting"]) ∧
    updateParticipantStatus [meetOpen] sockAin (some ⟨"ABC12345", some true, none⟩) =
      (saveMeeting [meetOpen]
        { meetOpen with participants :=
            updateFirstParticipant meetOpen.participants "A" (some true) none },
       [⟨Target.room "ABC12345", "participant-status-updated",
         Payload.statusUpdated (some "A") "Alice" (some true) none⟩]) :=
  ⟨C9_amended.1 [meetOpen] sockB ⟨"ABC12345", some true, none⟩ (by decide),
   C9_amended.2.1 [meetOpen] sockAin ⟨"ABC12345", some true, none⟩ meetOpen "A"
     hostPart (by decide) (by decide) (by decide) (by decide)⟩

/-- C10: a join by an unauthenticated (guest) session leaves the persisted
meeting store entirely unchanged, and contrapositively only an
authenticated join can change it. -/
theorem C10_theorem :
    (∀ (db : List Meeting) (rooms : Rooms) (sock : SocketState) (data : Option String),
      sock.isAuthenticated = false → (joinMeeting db rooms sock data).db = db) ∧
    (∀ (db : List Meeting) (rooms : Rooms) (sock : SocketState) (data : Option String),
      (joinMeeting db rooms sock data).db ≠ db → sock.isAuthenticated = true) := by
  have main : ∀ (db : List Meeting) (rooms : Rooms) (sock : SocketState)
      (data : Option String), sock.isAuthenticated = false →
      (joinMeeting db rooms sock data).db = db := by
    intro db rooms sock data ha
    cases data with
    | none => rfl
    | some mid =>
      cases hf : findActiveMeeting db mid with
      | none => simp [joinMeeting, hf]
      | some meeting =>
        simp only [joinMeeting, hf, ha, Bool.false_eq_true, if_false]
        exact joinTail_db _ _ _ _ _
  refine ⟨main, ?_⟩
  intro db rooms sock data hne
  cases hb : sock.isAuthenticated with
  | false => exact absurd (main db rooms sock data hb) hne
  | true => rfl

/-- C10, witness: a concrete guest join leaves the store unchanged. -/
theorem C10_witness :
    (joinMeeting [meetOpen] [] sockG (some "ABC12345")).db = [meetOpen] :=
  C10_theorem.1 [meetOpen] [] sockG (some "ABC12345") rfl

end DQ
